import Mathlib

/-!
Verification development for the bnard_ball locomotion core.

The definitions below are shallow embeddings of the JavaScript source of the
repository: the ramp constraint solver and gate detector
(src/Experience/World/RampL.js), the locomotion mode dispatch
(src/Experience/World/Player/Player.js, PlayerPhysics.js), the ocean mode
(src/Experience/World/Player/GroundMode.js, class OceanMode), and the flight
mode (src/Experience/World/Player/FlightMode.js).  Real-number quantities that
the source computes with sqrt, pi and exp are modelled over the reals; purely
order-and-field comparisons (ocean hysteresis, gate plane tests, mode
dispatch) are modelled over the rationals so that concrete runs are decidable.
-/

/-- World-space 3D vector over the reals (mirrors THREE.Vector3 / Rapier vectors). -/
structure Vec3 where
  x : ℝ
  y : ℝ
  z : ℝ

namespace RampL

/-- Height function from RampL.y:
y(x) = ((M-1)/(L*L)) * x^3 + ((2-M)/L) * x^2 - x. -/
noncomputable def y (L M x : ℝ) : ℝ :=
  (M - 1) / (L * L) * (x * x * x) + (2 - M) / L * (x * x) - x

/-- Analytic derivative from RampL.dy:
dy(x) = 3*((M-1)/(L*L))*x^2 + 2*((2-M)/L)*x - 1. -/
noncomputable def dy (L M x : ℝ) : ℝ :=
  3 * ((M - 1) / (L * L)) * (x * x) + 2 * ((2 - M) / L) * x - 1

/-- Unit surface normal from RampL.getNormal: (-dy, 1) / sqrt(1 + dy^2). -/
noncomputable def getNormal (L M x : ℝ) : ℝ × ℝ :=
  (-(dy L M x) / Real.sqrt (1 + dy L M x * dy L M x),
   1 / Real.sqrt (1 + dy L M x * dy L M x))

/-- Tangential acceleration computed in each substep of
RampL.stepRampConstraint: aT = (-g * dy(x)) / sqrt(1 + dy(x)^2). -/
noncomputable def aT (g L M x : ℝ) : ℝ :=
  -g * dy L M x / Real.sqrt (1 + dy L M x * dy L M x)

/-- Ramp constraint state (RampL.rampState): progress along the curve,
arc speed, lateral offset and preserved lateral velocity. -/
structure RampState where
  rampX : ℝ
  vS : ℝ
  lateralZ : ℝ
  vZ : ℝ

/-- Number of substeps per tick (RampL.substeps, default 4). -/
def substeps : ℕ := 4

/-- Updated arc speed of one substep of RampL.stepRampConstraint:
vS + aT * subDt. -/
noncomputable def substepVS (g L M subDt : ℝ) (s : RampState) : ℝ :=
  s.vS + aT g L M s.rampX * subDt

/-- Updated (pre-clamp) progress of one substep of RampL.stepRampConstraint:
rampX + (vS * subDt) / sqrt(1 + dy(rampX)^2), using the already updated vS. -/
noncomputable def substepX (g L M subDt : ℝ) (s : RampState) : ℝ :=
  s.rampX + substepVS g L M subDt s * subDt /
    Real.sqrt (1 + dy L M s.rampX * dy L M s.rampX)

/-- Progress after the lower-bound clamp of RampL.stepRampConstraint:
if rampX < 0 then 0 else rampX. -/
noncomputable def substepX2 (g L M subDt : ℝ) (s : RampState) : ℝ :=
  if substepX g L M subDt s < 0 then 0 else substepX g L M subDt s

/-- Arc speed after the lower-bound clamp of RampL.stepRampConstraint:
reflected to its absolute value exactly when the lower bound was hit. -/
noncomputable def substepVS2 (g L M subDt : ℝ) (s : RampState) : ℝ :=
  if substepX g L M subDt s < 0 then |substepVS g L M subDt s|
  else substepVS g L M subDt s

/-- One substep of the loop body of RampL.stepRampConstraint.  The Bool is
the exitedRamp flag: true exactly when the clamped progress reached L
(source: if rampX >= L then rampX = L, exitedRamp = true, break). -/
noncomputable def rampSubstep (g L M subDt : ℝ) (s : RampState) :
    RampState × Bool :=
  if L ≤ substepX2 g L M subDt s then
    (⟨L, substepVS2 g L M subDt s, s.lateralZ + s.vZ * subDt, s.vZ⟩, true)
  else
    (⟨substepX2 g L M subDt s, substepVS2 g L M subDt s,
      s.lateralZ + s.vZ * subDt, s.vZ⟩, false)

/-- The substep loop of RampL.stepRampConstraint: iterate rampSubstep,
breaking out as soon as a substep reports exitedRamp. -/
noncomputable def rampLoop (g L M subDt : ℝ) : ℕ → RampState → RampState × Bool
  | 0, s => (s, false)
  | n + 1, s =>
      match rampSubstep g L M subDt s with
      | (s1, true) => (s1, true)
      | (s1, false) => rampLoop g L M subDt n s1

/-- RampL.stepRampConstraint: substep the constraint physics, then recompute
the world position (curve point plus radius offset along the normal) and the
world velocity (tangent scaled by arc speed plus lateral velocity). -/
noncomputable def stepRampConstraint (g L M r : ℝ) (origin : Vec3) (dt : ℝ)
    (s : RampState) : RampState × Bool × Vec3 × Vec3 :=
  let res := rampLoop g L M (dt / (substeps : ℝ)) substeps s
  let s1 := res.1
  let n := getNormal L M s1.rampX
  let denom := Real.sqrt (1 + dy L M s1.rampX * dy L M s1.rampX)
  (s1, res.2,
   ⟨origin.x + s1.rampX + n.1 * r, origin.y + y L M s1.rampX + n.2 * r,
    origin.z + s1.lateralZ⟩,
   ⟨s1.vS * (1 / denom), s1.vS * (dy L M s1.rampX / denom), s1.vZ⟩)

/-- Entry progress of RampL.enterRampMode:
Math.max(0, Math.min(pos.x - rampOrigin.x, L)). -/
noncomputable def entryRampX (L : ℝ) (origin pos : Vec3) : ℝ :=
  max 0 (min (pos.x - origin.x) L)

/-- Entry arc speed of RampL.enterRampMode: vel.x * tx + vel.y * ty with
(tx, ty) = (1, dy) / sqrt(1 + dy^2) evaluated at the entry progress. -/
noncomputable def entryVS (L M : ℝ) (origin pos vel : Vec3) : ℝ :=
  vel.x * (1 / Real.sqrt (1 + dy L M (entryRampX L origin pos) *
      dy L M (entryRampX L origin pos))) +
  vel.y * (dy L M (entryRampX L origin pos) /
    Real.sqrt (1 + dy L M (entryRampX L origin pos) *
      dy L M (entryRampX L origin pos)))

/-- Radius actually used by RampL.enterRampMode:
player.vars.radius || 1 (JavaScript: 0 is falsy and falls back to 1). -/
noncomputable def entryRadius (radius : ℝ) : ℝ :=
  if radius = 0 then 1 else radius

/-- RampL.enterRampMode: build the fresh ramp state from the current body
position and velocity, and the snapped world position and velocity that are
immediately written into the body. -/
noncomputable def enterRampMode (L M : ℝ) (origin : Vec3) (radius : ℝ)
    (pos vel : Vec3) : RampState × Vec3 × Vec3 :=
  (⟨entryRampX L origin pos, entryVS L M origin pos vel,
    pos.z - origin.z, vel.z⟩,
   ⟨origin.x + entryRampX L origin pos +
      (getNormal L M (entryRampX L origin pos)).1 * entryRadius radius,
    origin.y + y L M (entryRampX L origin pos) +
      (getNormal L M (entryRampX L origin pos)).2 * entryRadius radius,
    origin.z + (pos.z - origin.z)⟩,
   ⟨entryVS L M origin pos vel *
      (1 / Real.sqrt (1 + dy L M (entryRampX L origin pos) *
        dy L M (entryRampX L origin pos))),
    entryVS L M origin pos vel *
      (dy L M (entryRampX L origin pos) /
        Real.sqrt (1 + dy L M (entryRampX L origin pos) *
          dy L M (entryRampX L origin pos))),
    vel.z⟩)

/-- Rational 3D vector used for the gate-plane tests of RampL.update, which
involve only field operations and order comparisons. -/
structure Vec3q where
  x : ℚ
  y : ℚ
  z : ℚ
deriving DecidableEq

/-- Gate configuration of RampL: gateCenter, the horizontal components of
gateNormal (its y component is zeroed in createComputedMeshes), gateWidth and
gateHeight. -/
structure GateConfig where
  centerX : ℚ
  centerY : ℚ
  centerZ : ℚ
  nx : ℚ
  nz : ℚ
  width : ℚ
  height : ℚ
deriving DecidableEq

/-- Signed distance of RampL.update: dot(toPlayer, gateNormal) where
toPlayer = (px - gateX, 0, pz - gateZ) and the y component of the normal
is zero. -/
def signedDistance (c : GateConfig) (px pz : ℚ) : ℚ :=
  (px - c.centerX) * c.nx + (pz - c.centerZ) * c.nz

/-- Height-bounds check of RampL.update:
gateY - halfHeight <= playerY and playerY <= gateY + halfHeight. -/
def withinY (c : GateConfig) (py : ℚ) : Bool :=
  decide (c.centerY - c.height / 2 ≤ py) && decide (py ≤ c.centerY + c.height / 2)

/-- Lateral distance of RampL.update: |dot(toPlayer, gateRight)| with
gateRight = (-nz, 0, nx). -/
def lateralDistance (c : GateConfig) (px pz : ℚ) : ℚ :=
  |(px - c.centerX) * (-c.nz) + (pz - c.centerZ) * c.nx|

/-- Width-bounds check of RampL.update: lateralDistance <= halfWidth. -/
def withinWidth (c : GateConfig) (px pz : ℚ) : Bool :=
  decide (lateralDistance c px pz ≤ c.width / 2)

/-- Persistent gate-detector state of RampL: the ramp-mode flag and the
remembered previous player position. -/
structure GateSt where
  rampMode : Bool
  prevPos : Option Vec3q
deriving DecidableEq

/-- Result of one gate-detection pass of RampL.update. -/
structure GateTickOut where
  st : GateSt
  crossedForward : Bool
  crossedBackward : Bool
  armed : Bool
deriving DecidableEq

/-- One tick of the gate-detection section of RampL.update.  While ramp mode
is active the whole section is skipped (early return before it) and the
previous position is not refreshed.  Otherwise a forward or backward crossing
is detected only when a previous position exists and the bounds checks pass;
a forward crossing arms the ramp solver (enterRampMode sets playerRampMode);
the previous position is refreshed at the end of the tick. -/
def gateTick (c : GateConfig) (st : GateSt) (p : Vec3q) : GateTickOut :=
  if st.rampMode then ⟨st, false, false, false⟩
  else
    match st.prevPos with
    | none => ⟨⟨st.rampMode, some p⟩, false, false, false⟩
    | some pp =>
        let sd := signedDistance c p.x p.z
        let psd := signedDistance c pp.x pp.z
        let inB := withinY c p.y && withinWidth c p.x p.z
        let cf := inB && decide (psd < 0) && decide (0 ≤ sd)
        let cb := inB && decide (0 < psd) && decide (sd ≤ 0)
        ⟨⟨cf, some p⟩, cf, cb, cf⟩

/-- Number of ramp-solver arming events along a trace of player positions,
where each arming switches ramp mode on (enterRampMode) and, as long as the
solver stays active, detection remains suspended. -/
def armCount (c : GateConfig) : GateSt → List Vec3q → ℕ
  | _, [] => 0
  | st, p :: ps =>
      (if (gateTick c st p).armed then 1 else 0) +
        armCount c (gateTick c st p).st ps

/-- RampL.update writes the body transform and velocity (setTranslation and
setLinvel) exactly when playerRampMode is active. -/
def rampWritesBody (rampMode : Bool) : Bool := rampMode

end RampL

namespace OceanMode

/-- Sea level height (OceanMode.seaLevel). -/
def seaLevel : ℚ := -230

/-- Hysteresis band (OceanMode.exitThreshold). -/
def exitThreshold : ℚ := 3

/-- One evaluation of OceanMode.isInOcean as a function of the body height
and the persistent isActive flag: enter at y <= seaLevel, leave only at
y > seaLevel + exitThreshold, otherwise keep the current state. -/
def isInOcean (py : ℚ) (isActive : Bool) : Bool :=
  if py ≤ seaLevel then true
  else if seaLevel + exitThreshold < py then false
  else isActive

/-- Iterated OceanMode.isInOcean along a trace of body heights. -/
def isInOceanTrace (ys : List ℚ) (isActive : Bool) : Bool :=
  ys.foldl (fun acc py => isInOcean py acc) isActive

end OceanMode

namespace Player

/-- The four locomotion modes dispatched by Player.update. -/
inductive LocoMode
  | submerged
  | flying
  | grounded
  | airborne
deriving DecidableEq

/-- The first-match mode dispatch of Player.update: ocean first, then flight,
then airborne when not grounded, else grounded. -/
def classifyMode (inOcean isFlying isGrounded : Bool) : LocoMode :=
  if inOcean then .submerged
  else if isFlying then .flying
  else if !isGrounded then .airborne
  else .grounded

/-- PlayerPhysics.checkGrounded: with a collider present, reset the flag to
false and set it to true once per active contact pair; without a collider the
early return keeps the previous value. -/
def checkGrounded (old : Bool) (hasCollider : Bool) (contacts : List ℕ) : Bool :=
  if hasCollider then contacts.foldl (fun _g _c => true) false else old

/-- Player.update mode resolution for one tick: none when the body handle is
absent (whole machine is a no-op), otherwise exactly the classified mode with
the grounded flag recomputed by checkGrounded. -/
def playerUpdateMode (hasBody inOcean isFlying oldGrounded hasCollider : Bool)
    (contacts : List ℕ) : Option LocoMode :=
  if hasBody then
    some (classifyMode inOcean isFlying (checkGrounded oldGrounded hasCollider contacts))
  else none

/-- Held movement keys of the input snapshot. -/
structure Keys where
  w : Bool
  s : Bool
  a : Bool
  d : Bool
deriving DecidableEq

/-- Whether the locomotion mode handler dispatched by Player.update mutates
the player body this tick: OceanMode.update always writes (setLinvel drag),
FlightMode.update always writes (applyImpulse and setAngvel), GroundMode
writes a torque impulse per held key, AirMode writes a linear impulse per
held key. -/
def locomotionWritesBody (inOcean isFlying isGrounded : Bool) (k : Keys) : Bool :=
  if inOcean then true
  else if isFlying then true
  else if !isGrounded then k.w || k.s || k.a || k.d
  else k.w || k.s || k.a || k.d

end Player

namespace World

/-- Both the locomotion handler and the ramp solver write the player body in
the same World.update tick (Player.update runs first, RampL.update second). -/
def bothWriteTick (inOcean isFlying isGrounded : Bool) (k : Player.Keys)
    (rampMode : Bool) : Bool :=
  Player.locomotionWritesBody inOcean isFlying isGrounded k &&
    RampL.rampWritesBody rampMode

end World

namespace FlightMode

/-- THREE.MathUtils.clamp(value, lo, hi) = Math.max(lo, Math.min(hi, value)). -/
noncomputable def clamp (lo hi v : ℝ) : ℝ := max lo (min hi v)

/-- Stall angle of FlightMode.applyPhysics: THREE.MathUtils.degToRad(12). -/
noncomputable def alphaStall : ℝ := 12 * Real.pi / 180

/-- Lift coefficient of FlightMode.applyPhysics before the final clamp:
linear 2*pi*alpha below the stall angle, and past stall the peak value
2*pi*alphaStall*sign(alpha) times exp(-8*(|alpha| - alphaStall)) times 0.3. -/
noncomputable def rawCL (alphaRad : ℝ) : ℝ :=
  if |alphaRad| < alphaStall then 2 * Real.pi * alphaRad
  else 2 * Real.pi * alphaStall * Real.sign alphaRad *
    Real.exp (-(|alphaRad| - alphaStall) * 8) * 0.3

/-- Lift coefficient of FlightMode.applyPhysics, clamped to [-1.2, 1.2]. -/
noncomputable def flightCL (alphaRad : ℝ) : ℝ := clamp (-1.2) 1.2 (rawCL alphaRad)

/-- Air density constant rho of FlightMode.applyPhysics. -/
noncomputable def rho : ℝ := 1.225

/-- Reference area constant S of FlightMode.applyPhysics. -/
noncomputable def S : ℝ := 2

/-- Stall speed constant of FlightMode.applyPhysics. -/
noncomputable def stallSpeed : ℝ := 15

/-- Minimum speed constant of FlightMode.applyPhysics. -/
noncomputable def minSpeed : ℝ := 5

/-- Dynamic pressure q of FlightMode.applyPhysics: 0.5 * rho * speed^2. -/
noncomputable def q (speed : ℝ) : ℝ := 0.5 * rho * speed * speed

/-- Low-speed stall blend factor of FlightMode.applyPhysics:
below stallSpeed it is max(0, ((speed - minSpeed)/(stallSpeed - minSpeed))^2),
otherwise 1. -/
noncomputable def stallFactor (speed : ℝ) : ℝ :=
  if speed < stallSpeed then
    max 0 (((speed - minSpeed) / (stallSpeed - minSpeed)) ^ 2)
  else 1

/-- Lift magnitude of FlightMode.applyPhysics: q * S * CL * stallFactor. -/
noncomputable def liftMagnitude (speed CL : ℝ) : ℝ :=
  q speed * S * CL * stallFactor speed

/-- Math.atan2 over the reals. -/
noncomputable def atan2 (py px : ℝ) : ℝ :=
  if 0 < px then Real.arctan (py / px)
  else if px < 0 then
    if 0 ≤ py then Real.arctan (py / px) + Real.pi
    else Real.arctan (py / px) - Real.pi
  else
    if 0 < py then Real.pi / 2
    else if py < 0 then -(Real.pi / 2)
    else 0

/-- Flight path angle used by FlightMode.activate to seed the pitch
controller: Math.atan2(vel.y, sqrt(vel.x^2 + vel.z^2)). -/
noncomputable def flightPathAngle (v : Vec3) : ℝ :=
  atan2 v.y (Real.sqrt (v.x * v.x + v.z * v.z))

/-- Player state fields touched by FlightMode.activate and OceanMode.update:
flags, gravity scale, angular velocity, the pitch and roll controller state,
the initial-velocity snapshot, linear velocity, position, body mass, and
whether the collision mesh has been created yet. -/
structure PVars where
  isFlying : Bool
  gravityScale : ℝ
  angvel : Vec3
  targetPitch : ℝ
  currentPitch : ℝ
  targetRoll : ℝ
  currentRoll : ℝ
  velocityInitial : Vec3
  velocity : Vec3
  position : Vec3
  mass : ℝ
  hasCollisionMesh : Bool

/-- FlightMode.activate: toggle the isFlying flag; only when the collision
mesh exists, run the entry side effects (gravity scale 0, zero angular
velocity, snapshot velocity, pitch targets from the flight path angle, roll
zero) or the exit side effects (pitch and roll state zeroed, gravity scale
restored to 1).  Visual-only effects (mesh colours, animations, logging) are
outside the model. -/
noncomputable def activate (s : PVars) : PVars :=
  if s.hasCollisionMesh then
    if !s.isFlying then
      { s with
        isFlying := true
        gravityScale := 0
        angvel := ⟨0, 0, 0⟩
        velocityInitial := s.velocity
        targetPitch := flightPathAngle s.velocity
        currentPitch := flightPathAngle s.velocity
        targetRoll := 0
        currentRoll := 0 }
    else
      { s with
        isFlying := false
        currentPitch := 0
        currentRoll := 0
        targetPitch := 0
        targetRoll := 0
        gravityScale := 1 }
  else
    { s with isFlying := !s.isFlying }

end FlightMode

namespace OceanMode

/-- Water drag factor (OceanMode.waterDrag). -/
noncomputable def waterDrag : ℝ := 0.98

/-- Buoyancy strength (OceanMode.waterBuoyancy). -/
noncomputable def waterBuoyancy : ℝ := 5

/-- Sea level as a real, for the submerged dynamics. -/
noncomputable def seaLevelR : ℝ := -230

/-- The submerged dynamics of OceanMode.update after the flight check:
multiplicative water drag on the linear velocity, an upward buoyancy impulse
proportional to the clamped depth below the surface (divided by the body mass,
per the Rapier applyImpulse semantics), and water drag on the angular
velocity. -/
noncomputable def oceanDynamics (s : FlightMode.PVars) : FlightMode.PVars :=
  let v : Vec3 := ⟨s.velocity.x * waterDrag, s.velocity.y * waterDrag,
    s.velocity.z * waterDrag⟩
  let depth := seaLevelR - s.position.y
  let v2 : Vec3 :=
    if 0 < depth then
      ⟨v.x, v.y + waterBuoyancy * min depth 1 / s.mass, v.z⟩
    else v
  { s with
    velocity := v2
    angvel := ⟨s.angvel.x * waterDrag, s.angvel.y * waterDrag,
      s.angvel.z * waterDrag⟩ }

/-- OceanMode.update: when the player is still flying, first disengage flight
mode through FlightMode.activate (restoring gravity scale and resetting the
rotation targets), then apply the submerged dynamics. -/
noncomputable def update (s : FlightMode.PVars) : FlightMode.PVars :=
  oceanDynamics (if s.isFlying then FlightMode.activate s else s)

end OceanMode

/-! Helper lemmas shared by the claim theorems. -/

theorem foldl_const_true (l : List ℕ) :
    List.foldl (fun _g _c => true) true l = true := by
  induction l with
  | nil => rfl
  | cons p ps ih => simpa using ih

/-- C4: once Submerged is entered at y at or below seaLevel, the mode stays
active every tick and exits only when y strictly exceeds seaLevel plus the
hysteresis band of 3; a trajectory oscillating at or below seaLevel + band
never exits. -/
theorem ocean_hysteresis :
    OceanMode.exitThreshold = 3 ∧
    (∀ (py : ℚ) (a : Bool), py ≤ OceanMode.seaLevel →
      OceanMode.isInOcean py a = true) ∧
    (∀ py : ℚ, OceanMode.isInOcean py true = false →
      OceanMode.seaLevel + OceanMode.exitThreshold < py) ∧
    (∀ ys : List ℚ,
      (∀ py ∈ ys, py ≤ OceanMode.seaLevel + OceanMode.exitThreshold) →
      OceanMode.isInOceanTrace ys true = true) := by
  refine ⟨rfl, ?_, ?_, ?_⟩
  · intro py a h
    simp [OceanMode.isInOcean, h]
  · intro py h
    rw [OceanMode.isInOcean] at h
    split_ifs at h with h1 h2
    exact h2
  · intro ys
    induction ys with
    | nil => intro _; rfl
    | cons p ps ih =>
      intro hall
      have hp : p ≤ OceanMode.seaLevel + OceanMode.exitThreshold :=
        hall p (List.mem_cons_self p ps)
      have h1 : OceanMode.isInOcean p true = true := by
        rw [OceanMode.isInOcean]
        split_ifs with h2 h3
        · rfl
        · exact absurd h3 (not_lt.mpr hp)
        · rfl
      have hstep : OceanMode.isInOceanTrace (p :: ps) true =
          OceanMode.isInOceanTrace ps (OceanMode.isInOcean p true) := rfl
      rw [hstep, h1]
      exact ih fun q hq => hall q (List.mem_cons_of_mem p hq)

/-- C4 witness: a concrete trajectory oscillating between seaLevel and
seaLevel + band never exits the mode. -/
theorem ocean_hysteresis_witness :
    OceanMode.isInOceanTrace [-230, -228, -229, -230, -228, -227] true = true :=
  ocean_hysteresis.2.2.2 _ (by
    intro py hpy
    fin_cases hpy <;> norm_num [OceanMode.seaLevel, OceanMode.exitThreshold])

/-- C5: on a tick with the body handle present, exactly one locomotion mode
is dispatched, resolved Submerged before Flying before contact-determined
Grounded, else Airborne, with the grounded flag recomputed from scratch from
the active contact pairs; without the body handle the machine is a no-op. -/
theorem player_mode_dispatch :
    (∀ o f g : Bool,
      (Player.classifyMode o f g = .submerged ↔ o = true) ∧
      (Player.classifyMode o f g = .flying ↔ o = false ∧ f = true) ∧
      (Player.classifyMode o f g = .grounded ↔ o = false ∧ f = false ∧ g = true) ∧
      (Player.classifyMode o f g = .airborne ↔ o = false ∧ f = false ∧ g = false)) ∧
    (∀ o f g : Bool,
      ((if Player.classifyMode o f g = .submerged then 1 else 0) +
        (if Player.classifyMode o f g = .flying then 1 else 0) +
        (if Player.classifyMode o f g = .grounded then 1 else 0) +
        (if Player.classifyMode o f g = .airborne then 1 else 0) : ℕ) = 1) ∧
    (∀ (old : Bool) (contacts : List ℕ),
      Player.checkGrounded old true contacts = !contacts.isEmpty) ∧
    (∀ (o f old hasC : Bool) (contacts : List ℕ),
      Player.playerUpdateMode true o f old hasC contacts =
        some (Player.classifyMode o f (Player.checkGrounded old hasC contacts))) ∧
    (∀ (o f old hasC : Bool) (contacts : List ℕ),
      Player.playerUpdateMode false o f old hasC contacts = none) := by
  refine ⟨by decide, by decide, ?_, ?_, ?_⟩
  · intro old contacts
    cases contacts with
    | nil => rfl
    | cons p ps => simpa [Player.checkGrounded] using foldl_const_true ps
  · intro o f old hasC contacts
    rfl
  · intro o f old hasC contacts
    rfl

/-- C9 counterexample: with ramp mode active, the player airborne (no ocean,
no flight, no ground contact) and the forward key held, the airborne handler
applies an impulse to the body in the very tick in which the ramp solver also
writes the body transform and velocity. -/
theorem ramp_loco_double_write :
    World.bothWriteTick false false false ⟨true, false, false, false⟩ true = true := by
  decide

/-- C9 amended: while ramp mode is active the solver is the sole writer of
the body exactly when the tick is neither Submerged nor Flying and no
movement key is held; any held key (or ocean or flight dynamics) makes a
locomotion handler write the body in the same tick the solver does. -/
theorem ramp_mode_sole_writer_iff :
    ∀ o f g w s a d : Bool,
      World.bothWriteTick o f g ⟨w, s, a, d⟩ true = false ↔
        o = false ∧ f = false ∧ w = false ∧ s = false ∧ a = false ∧ d = false := by
  intro o f g w s a d
  cases o <;> cases f <;> cases g <;> cases w <;> cases s <;> cases a <;>
    cases d <;> decide

/-- C10: if the flight toggle fires while the collision mesh has not yet been
created, FlightMode.activate only flips the isFlying flag; gravity scale,
angular velocity and the pitch and roll controller state are all left
untouched. -/
theorem flight_toggle_without_mesh (s : FlightMode.PVars)
    (h : s.hasCollisionMesh = false) :
    FlightMode.activate s = { s with isFlying := !s.isFlying } := by
  simp [FlightMode.activate, h]

/-- C10 witness: from a non-flying default state without a collision mesh,
the toggle leaves the system flying with world gravity still at scale 1. -/
theorem flight_toggle_without_mesh_witness :
    (FlightMode.activate
      ⟨false, 1, ⟨0, 0, 0⟩, 0, 0, 0, 0, ⟨0, 0, 0⟩, ⟨0, 0, 0⟩, ⟨0, 0, 0⟩, 1,
        false⟩).isFlying = true ∧
    (FlightMode.activate
      ⟨false, 1, ⟨0, 0, 0⟩, 0, 0, 0, 0, ⟨0, 0, 0⟩, ⟨0, 0, 0⟩, ⟨0, 0, 0⟩, 1,
        false⟩).gravityScale = 1 := by
  rw [flight_toggle_without_mesh _ rfl]
  exact ⟨rfl, rfl⟩

/-- C7 counterexample: at speed 0 (below the minimum speed 5) the stall blend
factor is 1/4, not 0 — the squared ramp term is positive again below the
minimum speed, so the factor is not 0 for every speed at or below 5. -/
theorem stall_factor_positive_below_min :
    FlightMode.stallFactor 0 = 1 / 4 ∧ (1 / 4 : ℝ) ≠ 0 := by
  constructor
  · rw [FlightMode.stallFactor,
      if_pos (by norm_num [FlightMode.stallSpeed] : (0 : ℝ) < FlightMode.stallSpeed)]
    rw [show (((0 : ℝ) - FlightMode.minSpeed) /
        (FlightMode.stallSpeed - FlightMode.minSpeed)) ^ 2 = 1 / 4 by
      norm_num [FlightMode.minSpeed, FlightMode.stallSpeed]]
    exact max_eq_right (by norm_num)
  · norm_num

/-- C7 amended: lift magnitude is dynamic pressure times reference area times
CL times the stall blend factor; the factor is ((speed-5)/10)^2 for speeds
below the stall speed 15 (zero exactly at the minimum speed 5 but positive
again below it, e.g. 1/4 at speed 0) and 1 for every speed at or above 15. -/
theorem lift_magnitude_stall_blend :
    (∀ speed CL : ℝ, FlightMode.liftMagnitude speed CL =
      0.5 * 1.225 * speed * speed * 2 * CL * FlightMode.stallFactor speed) ∧
    (∀ speed : ℝ, speed < 15 →
      FlightMode.stallFactor speed = ((speed - 5) / 10) ^ 2) ∧
    (∀ speed : ℝ, 15 ≤ speed → FlightMode.stallFactor speed = 1) ∧
    FlightMode.stallFactor 5 = 0 ∧
    FlightMode.stallFactor 0 = 1 / 4 := by
  have hbelow : ∀ speed : ℝ, speed < 15 →
      FlightMode.stallFactor speed = ((speed - 5) / 10) ^ 2 := by
    intro speed h
    rw [FlightMode.stallFactor,
      if_pos (by rw [FlightMode.stallSpeed]; exact h),
      show FlightMode.stallSpeed - FlightMode.minSpeed = 10 by
        norm_num [FlightMode.stallSpeed, FlightMode.minSpeed],
      FlightMode.minSpeed]
    exact max_eq_right (sq_nonneg _)
  refine ⟨?_, hbelow, ?_, ?_, ?_⟩
  · intro speed CL
    rw [FlightMode.liftMagnitude, FlightMode.q, FlightMode.rho, FlightMode.S]
  · intro speed h
    rw [FlightMode.stallFactor, if_neg (not_lt.mpr (by rw [FlightMode.stallSpeed]; exact h))]
  · rw [hbelow 5 (by norm_num)]
    norm_num
  · rw [hbelow 0 (by norm_num)]
    norm_num

/-- C7 witness: at speed 20 (above the stall speed) the blend factor is 1. -/
theorem lift_magnitude_stall_blend_witness : FlightMode.stallFactor 20 = 1 :=
  lift_magnitude_stall_blend.2.2.1 20 (by norm_num)

theorem gateTick_suspended (c : RampL.GateConfig) (st : RampL.GateSt)
    (p : RampL.Vec3q) (h : st.rampMode = true) :
    RampL.gateTick c st p = ⟨st, false, false, false⟩ := by
  simp [RampL.gateTick, h]

theorem gateTick_rampMode_eq (c : RampL.GateConfig) (st : RampL.GateSt)
    (p : RampL.Vec3q) (h : st.rampMode = false) :
    ((RampL.gateTick c st p).st).rampMode = (RampL.gateTick c st p).armed := by
  obtain ⟨rm, pp⟩ := st
  cases rm with
  | true => simp at h
  | false => cases pp <;> simp [RampL.gateTick]

theorem armCount_le_one (c : RampL.GateConfig) :
    ∀ (ps : List RampL.Vec3q) (st : RampL.GateSt),
      RampL.armCount c st ps ≤ if st.rampMode then 0 else 1 := by
  intro ps
  induction ps with
  | nil => intro st; simp [RampL.armCount]
  | cons p ps ih =>
    intro st
    rw [RampL.armCount]
    by_cases hrm : st.rampMode = true
    · rw [gateTick_suspended c st p hrm]
      have h3 := ih st
      rw [hrm] at h3 ⊢
      simpa using h3
    · have hrm2 : st.rampMode = false := by simpa using hrm
      have hre := gateTick_rampMode_eq c st p hrm2
      by_cases ha : (RampL.gateTick c st p).armed = true
      · have h3 := ih (RampL.gateTick c st p).st
        rw [hre, ha] at h3
        simp only [if_true] at h3
        rw [hrm2]
        simp [ha, Nat.le_zero.mp (by simpa using h3)]
      · have ha2 : (RampL.gateTick c st p).armed = false := by simpa using ha
        have h3 := ih (RampL.gateTick c st p).st
        rw [hre, ha2] at h3
        rw [hrm2]
        simpa [ha2] using h3

/-- C2: while ramp mode is active, gate detection is fully suspended and the
previous-position memory is not refreshed; otherwise a forward (resp.
backward) crossing is detected exactly when a previous position exists, the
signed horizontal distance changes sign in the corresponding direction, and
the height and width bounds checks pass; only forward crossings arm the ramp
solver, and over any trace of positions the solver is armed at most once
while it stays active. -/
theorem gate_crossing_detection :
    (∀ (c : RampL.GateConfig) (st : RampL.GateSt) (p : RampL.Vec3q),
      st.rampMode = true → RampL.gateTick c st p = ⟨st, false, false, false⟩) ∧
    (∀ (c : RampL.GateConfig) (st : RampL.GateSt) (p : RampL.Vec3q),
      st.rampMode = false →
      ((RampL.gateTick c st p).crossedForward = true ↔
        (∃ pp, st.prevPos = some pp ∧
          RampL.signedDistance c pp.x pp.z < 0 ∧
          0 ≤ RampL.signedDistance c p.x p.z ∧
          RampL.withinY c p.y = true ∧ RampL.withinWidth c p.x p.z = true)) ∧
      ((RampL.gateTick c st p).crossedBackward = true ↔
        (∃ pp, st.prevPos = some pp ∧
          0 < RampL.signedDistance c pp.x pp.z ∧
          RampL.signedDistance c p.x p.z ≤ 0 ∧
          RampL.withinY c p.y = true ∧ RampL.withinWidth c p.x p.z = true)) ∧
      (RampL.gateTick c st p).armed = (RampL.gateTick c st p).crossedForward ∧
      ((RampL.gateTick c st p).crossedBackward = true →
        (RampL.gateTick c st p).armed = false) ∧
      ((RampL.gateTick c st p).st).prevPos = some p) ∧
    (∀ (c : RampL.GateConfig) (st : RampL.GateSt) (ps : List RampL.Vec3q),
      RampL.armCount c st ps ≤ if st.rampMode then 0 else 1) := by
  refine ⟨?_, ?_, fun c st ps => armCount_le_one c ps st⟩
  · intro c st p h
    exact gateTick_suspended c st p h
  · intro c st p h
    obtain ⟨rm, pp⟩ := st
    cases rm with
    | true => simp at h
    | false =>
      cases pp with
      | none => simp [RampL.gateTick]
      | some v =>
        refine ⟨?_, ?_, ?_, ?_, ?_⟩
        · simp only [RampL.gateTick, Bool.false_eq_true, if_false,
            Bool.and_eq_true, decide_eq_true_eq]
          constructor
          · rintro ⟨⟨⟨hy, hw⟩, hpsd⟩, hsd⟩
            exact ⟨v, rfl, hpsd, hsd, hy, hw⟩
          · rintro ⟨pp2, hpp, hpsd, hsd, hy, hw⟩
            obtain rfl : v = pp2 := by simpa using hpp
            exact ⟨⟨⟨hy, hw⟩, hpsd⟩, hsd⟩
        · simp only [RampL.gateTick, Bool.false_eq_true, if_false,
            Bool.and_eq_true, decide_eq_true_eq]
          constructor
          · rintro ⟨⟨⟨hy, hw⟩, hpsd⟩, hsd⟩
            exact ⟨v, rfl, hpsd, hsd, hy, hw⟩
          · rintro ⟨pp2, hpp, hpsd, hsd, hy, hw⟩
            obtain rfl : v = pp2 := by simpa using hpp
            exact ⟨⟨⟨hy, hw⟩, hpsd⟩, hsd⟩
        · simp [RampL.gateTick]
        · intro hcb
          simp only [RampL.gateTick, Bool.false_eq_true, if_false,
            Bool.and_eq_true, decide_eq_true_eq] at hcb
          obtain ⟨⟨⟨hy, hw⟩, hpsd⟩, hsd⟩ := hcb
          have hne : ¬(RampL.signedDistance c v.x v.z < 0) := not_lt.mpr hpsd.le
          simp [RampL.gateTick, hne]
        · simp [RampL.gateTick]

/-- C2 witness: with the configured gate (center (236, -208, 0), horizontal
normal (1, 0), width 40, height 30), detection is suspended in ramp mode, and
a straight trace crossing the gate plane once arms the solver at most once. -/
theorem gate_crossing_detection_witness :
    RampL.gateTick ⟨236, -208, 0, 1, 0, 40, 30⟩ ⟨true, none⟩ ⟨230, -208, 0⟩ =
      ⟨⟨true, none⟩, false, false, false⟩ ∧
    RampL.armCount ⟨236, -208, 0, 1, 0, 40, 30⟩ ⟨false, none⟩
      [⟨230, -208, 0⟩, ⟨240, -208, 0⟩, ⟨250, -208, 0⟩] ≤ 1 := by
  constructor
  · exact gate_crossing_detection.1 _ _ _ rfl
  · have h := gate_crossing_detection.2.2 ⟨236, -208, 0, 1, 0, 40, 30⟩
      ⟨false, none⟩ [⟨230, -208, 0⟩, ⟨240, -208, 0⟩, ⟨250, -208, 0⟩]
    simpa using h

theorem rampSubstep_fst_vS (g L M subDt : ℝ) (s : RampL.RampState) :
    ((RampL.rampSubstep g L M subDt s).1).vS = RampL.substepVS2 g L M subDt s := by
  rw [RampL.rampSubstep]
  split <;> rfl

theorem dy_at_zero : RampL.dy 30 1.3 0 = -1 := by
  norm_num [RampL.dy]

theorem aT_at_zero : RampL.aT 9.81 30 1.3 0 = 9.81 / Real.sqrt 2 := by
  rw [RampL.aT, dy_at_zero]
  norm_num

theorem aT_at_zero_pos : 0 < RampL.aT 9.81 30 1.3 0 := by
  rw [aT_at_zero]
  exact div_pos (by norm_num) (Real.sqrt_pos.mpr (by norm_num))

/-- C1: each ramp-mode tick is integrated in substeps (default 4), each
substep adding aT = -g*dy/sqrt(1+dy^2) times subDt to the arc speed, adding
the lateral velocity times subDt to the lateral position, advancing progress
by vS*subDt/sqrt(1+dy^2), clamping progress to [0, L] with the arc speed
reflected to its absolute value at the lower bound, and ending the
constrained phase when progress reaches L; for L = 30 and M = 1.3 the slope
at progress 0 is -1, so a body at rest there gets aT(0) = g/sqrt(2) > 0 and
its arc speed becomes positive (it accelerates toward increasing progress). -/
theorem ramp_substep_integration :
    RampL.substeps = 4 ∧
    (∀ (g L M r : ℝ) (origin : Vec3) (dt : ℝ) (s : RampL.RampState),
      (RampL.stepRampConstraint g L M r origin dt s).1 =
        (RampL.rampLoop g L M (dt / 4) 4 s).1) ∧
    (∀ (g L M subDt : ℝ) (s : RampL.RampState),
      RampL.substepVS g L M subDt s = s.vS + RampL.aT g L M s.rampX * subDt ∧
      RampL.substepX g L M subDt s = s.rampX +
        RampL.substepVS g L M subDt s * subDt /
          Real.sqrt (1 + RampL.dy L M s.rampX * RampL.dy L M s.rampX) ∧
      (0 ≤ RampL.substepX g L M subDt s → RampL.substepX g L M subDt s < L →
        RampL.rampSubstep g L M subDt s =
          (⟨RampL.substepX g L M subDt s, RampL.substepVS g L M subDt s,
            s.lateralZ + s.vZ * subDt, s.vZ⟩, false)) ∧
      (RampL.substepX g L M subDt s < 0 → 0 < L →
        RampL.rampSubstep g L M subDt s =
          (⟨0, |RampL.substepVS g L M subDt s|,
            s.lateralZ + s.vZ * subDt, s.vZ⟩, false)) ∧
      (0 ≤ RampL.substepX g L M subDt s → L ≤ RampL.substepX g L M subDt s →
        RampL.rampSubstep g L M subDt s =
          (⟨L, RampL.substepVS g L M subDt s,
            s.lateralZ + s.vZ * subDt, s.vZ⟩, true))) ∧
    RampL.dy 30 1.3 0 = -1 ∧
    RampL.aT 9.81 30 1.3 0 = 9.81 / Real.sqrt 2 ∧
    0 < RampL.aT 9.81 30 1.3 0 ∧
    (∀ subDt : ℝ, 0 < subDt →
      0 < ((RampL.rampSubstep 9.81 30 1.3 subDt ⟨0, 0, 0, 0⟩).1).vS) := by
  refine ⟨rfl, ?_, ?_, dy_at_zero, aT_at_zero, aT_at_zero_pos, ?_⟩
  · intro g L M r origin dt s
    norm_num [RampL.stepRampConstraint, RampL.substeps]
  · intro g L M subDt s
    refine ⟨rfl, rfl, ?_, ?_, ?_⟩
    · intro h0 hL
      have hx2 : RampL.substepX2 g L M subDt s = RampL.substepX g L M subDt s :=
        if_neg (not_lt.mpr h0)
      have hv2 : RampL.substepVS2 g L M subDt s = RampL.substepVS g L M subDt s :=
        if_neg (not_lt.mpr h0)
      rw [RampL.rampSubstep, hx2, hv2, if_neg (not_le.mpr hL)]
    · intro hneg hL
      have hx2 : RampL.substepX2 g L M subDt s = 0 := if_pos hneg
      have hv2 : RampL.substepVS2 g L M subDt s =
          |RampL.substepVS g L M subDt s| := if_pos hneg
      rw [RampL.rampSubstep, hx2, hv2, if_neg (not_le.mpr hL)]
    · intro h0 hL
      have hx2 : RampL.substepX2 g L M subDt s = RampL.substepX g L M subDt s :=
        if_neg (not_lt.mpr h0)
      have hv2 : RampL.substepVS2 g L M subDt s = RampL.substepVS g L M subDt s :=
        if_neg (not_lt.mpr h0)
      rw [RampL.rampSubstep, hx2, hv2, if_pos hL]
  · intro subDt hdt
    rw [rampSubstep_fst_vS]
    have hvs : RampL.substepVS 9.81 30 1.3 subDt ⟨0, 0, 0, 0⟩ =
        9.81 / Real.sqrt 2 * subDt := by
      show (0 : ℝ) + RampL.aT 9.81 30 1.3 0 * subDt = 9.81 / Real.sqrt 2 * subDt
      rw [aT_at_zero, zero_add]
    have hpos : 0 < RampL.substepVS 9.81 30 1.3 subDt ⟨0, 0, 0, 0⟩ := by
      rw [hvs]
      exact mul_pos (div_pos (by norm_num) (Real.sqrt_pos.mpr (by norm_num))) hdt
    rw [RampL.substepVS2]
    split
    · exact abs_pos.mpr (ne_of_gt hpos)
    · exact hpos

/-- C1 witness: one substep of one second from rest at progress 0 on the
configured curve leaves a strictly positive arc speed. -/
theorem ramp_substep_integration_witness :
    0 < ((RampL.rampSubstep 9.81 30 1.3 1 ⟨0, 0, 0, 0⟩).1).vS :=
  ramp_substep_integration.2.2.2.2.2.2 1 one_pos

/-- C3: on ramp entry the solver computes progress as the world x coordinate
minus the ramp origin x clamped to [0, L], sets the arc speed to the dot
product of the pre-entry velocity with the unit tangent (1, dy)/sqrt(1+dy^2)
at that progress, captures the lateral position and lateral z velocity
unchanged, and immediately writes the body position to the curve point offset
by the player radius along the unit normal and the body velocity to the
tangent scaled by the arc speed plus the preserved lateral z velocity. -/
theorem ramp_entry_projection (L M : ℝ) (origin : Vec3) (radius : ℝ)
    (pos vel : Vec3) (h : radius ≠ 0) :
    ((RampL.enterRampMode L M origin radius pos vel).1).rampX =
      max 0 (min (pos.x - origin.x) L) ∧
    ((RampL.enterRampMode L M origin radius pos vel).1).vS =
      (vel.x * 1 + vel.y * RampL.dy L M (RampL.entryRampX L origin pos)) /
        Real.sqrt (1 + RampL.dy L M (RampL.entryRampX L origin pos) *
          RampL.dy L M (RampL.entryRampX L origin pos)) ∧
    ((RampL.enterRampMode L M origin radius pos vel).1).lateralZ =
      pos.z - origin.z ∧
    ((RampL.enterRampMode L M origin radius pos vel).1).vZ = vel.z ∧
    ((RampL.enterRampMode L M origin radius pos vel).2.1).x =
      origin.x + RampL.entryRampX L origin pos +
        (RampL.getNormal L M (RampL.entryRampX L origin pos)).1 * radius ∧
    ((RampL.enterRampMode L M origin radius pos vel).2.1).y =
      origin.y + RampL.y L M (RampL.entryRampX L origin pos) +
        (RampL.getNormal L M (RampL.entryRampX L origin pos)).2 * radius ∧
    ((RampL.enterRampMode L M origin radius pos vel).2.1).z = pos.z ∧
    ((RampL.enterRampMode L M origin radius pos vel).2.2).x =
      ((RampL.enterRampMode L M origin radius pos vel).1).vS *
        (1 / Real.sqrt (1 + RampL.dy L M (RampL.entryRampX L origin pos) *
          RampL.dy L M (RampL.entryRampX L origin pos))) ∧
    ((RampL.enterRampMode L M origin radius pos vel).2.2).y =
      ((RampL.enterRampMode L M origin radius pos vel).1).vS *
        (RampL.dy L M (RampL.entryRampX L origin pos) /
          Real.sqrt (1 + RampL.dy L M (RampL.entryRampX L origin pos) *
            RampL.dy L M (RampL.entryRampX L origin pos))) ∧
    ((RampL.enterRampMode L M origin radius pos vel).2.2).z = vel.z := by
  have hr : RampL.entryRadius radius = radius := if_neg h
  refine ⟨rfl, ?_, rfl, rfl, ?_, ?_, ?_, rfl, rfl, rfl⟩
  · show RampL.entryVS L M origin pos vel = _
    rw [RampL.entryVS, mul_one, mul_one_div, ← mul_div_assoc, div_add_div_same]
  · show origin.x + RampL.entryRampX L origin pos +
        (RampL.getNormal L M (RampL.entryRampX L origin pos)).1 *
          RampL.entryRadius radius = _
    rw [hr]
  · show origin.y + RampL.y L M (RampL.entryRampX L origin pos) +
        (RampL.getNormal L M (RampL.entryRampX L origin pos)).2 *
          RampL.entryRadius radius = _
    rw [hr]
  · show origin.z + (pos.z - origin.z) = pos.z
    ring

/-- C3 witness: a concrete entry with the configured ramp preserves the
lateral position and the lateral z velocity. -/
theorem ramp_entry_projection_witness :
    ((RampL.enterRampMode 30 1.3 ⟨229.4, -214.65, 0⟩ 1 ⟨230, -210, 5⟩
      ⟨2, -1, 3⟩).1).lateralZ = 5 - 0 ∧
    ((RampL.enterRampMode 30 1.3 ⟨229.4, -214.65, 0⟩ 1 ⟨230, -210, 5⟩
      ⟨2, -1, 3⟩).1).vZ = 3 := by
  have h := ramp_entry_projection 30 1.3 ⟨229.4, -214.65, 0⟩ 1 ⟨230, -210, 5⟩
    ⟨2, -1, 3⟩ (by norm_num)
  exact ⟨h.2.2.1, h.2.2.2.1⟩

theorem alphaStall_eq : FlightMode.alphaStall = Real.pi / 15 := by
  rw [FlightMode.alphaStall]
  ring

theorem alphaStall_pos : 0 < FlightMode.alphaStall := by
  rw [alphaStall_eq]
  positivity

theorem flightCL_just_below :
    FlightMode.flightCL (FlightMode.alphaStall - 1 / 100) = 1.2 := by
  have hs := alphaStall_eq
  have hp1 := Real.pi_gt_d6
  have hp2 := Real.pi_lt_d2
  have hapos : 0 < FlightMode.alphaStall - 1 / 100 := by
    rw [hs]
    nlinarith
  have habs : |FlightMode.alphaStall - 1 / 100| =
      FlightMode.alphaStall - 1 / 100 := abs_of_pos hapos
  have hlt : |FlightMode.alphaStall - 1 / 100| < FlightMode.alphaStall := by
    rw [habs]
    linarith
  have hge : (1.2 : ℝ) ≤ 2 * Real.pi * (FlightMode.alphaStall - 1 / 100) := by
    rw [hs]
    nlinarith [sq_nonneg (Real.pi - 3.141592)]
  rw [FlightMode.flightCL, FlightMode.clamp, FlightMode.rawCL, if_pos hlt,
    min_eq_left hge]
  exact max_eq_right (by norm_num)

theorem flightCL_just_above :
    FlightMode.flightCL (FlightMode.alphaStall + 1 / 100) < 1 / 2 := by
  have hs := alphaStall_eq
  have hp1 := Real.pi_gt_d6
  have hp2 := Real.pi_lt_d2
  have hapos : 0 < FlightMode.alphaStall + 1 / 100 := by
    rw [hs]
    nlinarith
  have habs : |FlightMode.alphaStall + 1 / 100| =
      FlightMode.alphaStall + 1 / 100 := abs_of_pos hapos
  have hnlt : ¬|FlightMode.alphaStall + 1 / 100| < FlightMode.alphaStall := by
    rw [habs]
    push_neg
    linarith
  have hsign : Real.sign (FlightMode.alphaStall + 1 / 100) = 1 :=
    Real.sign_of_pos hapos
  have harg : FlightMode.alphaStall + 1 / 100 - FlightMode.alphaStall =
      1 / 100 := by ring
  have hraw : FlightMode.rawCL (FlightMode.alphaStall + 1 / 100) =
      2 * Real.pi * FlightMode.alphaStall * Real.exp (-(1 / 100) * 8) * 0.3 := by
    rw [FlightMode.rawCL, if_neg hnlt, hsign, habs, harg]
    ring
  have hE_le : Real.exp (-(1 / 100) * 8) ≤ 1 := by
    calc Real.exp (-(1 / 100) * 8) ≤ Real.exp 0 :=
          Real.exp_le_exp.mpr (by norm_num)
      _ = 1 := Real.exp_zero
  have hE_pos : 0 < Real.exp (-(1 / 100) * 8) := Real.exp_pos _
  have hub : FlightMode.rawCL (FlightMode.alphaStall + 1 / 100) < 1 / 2 := by
    rw [hraw, hs]
    nlinarith [hE_le, hE_pos, mul_pos Real.pi_pos Real.pi_pos,
      Real.pi_pos]
  have hlb : 0 < FlightMode.rawCL (FlightMode.alphaStall + 1 / 100) := by
    rw [hraw, hs]
    positivity
  rw [FlightMode.flightCL, FlightMode.clamp,
    min_eq_right (by linarith : FlightMode.rawCL (FlightMode.alphaStall + 1 / 100) ≤ 1.2),
    max_eq_right (by linarith : (-1.2 : ℝ) ≤ FlightMode.rawCL (FlightMode.alphaStall + 1 / 100))]
  exact hub

/-- C6 counterexample: the lift coefficient is not continuous at the stall
boundary: one hundredth of a radian below 12 degrees it attains the clamped
peak 1.2, while one hundredth above it has already dropped below 1.2 (to
about 30 percent of the unclamped peak), so the two sides do not both produce
the peak value. -/
theorem flight_cl_stall_jump :
    FlightMode.flightCL (FlightMode.alphaStall - 1 / 100) = 1.2 ∧
    FlightMode.flightCL (FlightMode.alphaStall + 1 / 100) < 1.2 ∧
    FlightMode.flightCL (FlightMode.alphaStall + 1 / 100) ≠
      FlightMode.flightCL (FlightMode.alphaStall - 1 / 100) := by
  have h2 := flightCL_just_above
  refine ⟨flightCL_just_below, by linarith, ?_⟩
  intro hEq
  rw [flightCL_just_below] at hEq
  rw [hEq] at h2
  norm_num at h2

/-- C6 amended: the lift coefficient is 2*pi*alpha (clamped to [-1.2, 1.2])
for angles of attack with magnitude below the 12-degree stall angle, and at
or beyond that angle it is the peak times an exponential dropoff times an
additional 0.3 factor (clamped); it stays within [-1.2, 1.2] everywhere but
is discontinuous at the stall boundary: just below the boundary it attains
the clamped peak 1.2, while just above it has already fallen below 1/2. -/
theorem flight_cl_model :
    (∀ a : ℝ, |a| < FlightMode.alphaStall →
      FlightMode.flightCL a = max (-1.2) (min 1.2 (2 * Real.pi * a))) ∧
    (∀ a : ℝ, FlightMode.alphaStall ≤ |a| →
      FlightMode.flightCL a = max (-1.2) (min 1.2
        (2 * Real.pi * FlightMode.alphaStall * Real.sign a *
          Real.exp (-(|a| - FlightMode.alphaStall) * 8) * 0.3))) ∧
    (∀ a : ℝ, -1.2 ≤ FlightMode.flightCL a ∧ FlightMode.flightCL a ≤ 1.2) ∧
    FlightMode.flightCL (FlightMode.alphaStall - 1 / 100) = 1.2 ∧
    FlightMode.flightCL (FlightMode.alphaStall + 1 / 100) < 1 / 2 := by
  refine ⟨?_, ?_, ?_, flightCL_just_below, flightCL_just_above⟩
  · intro a hlt
    rw [FlightMode.flightCL, FlightMode.clamp, FlightMode.rawCL, if_pos hlt]
  · intro a hge
    rw [FlightMode.flightCL, FlightMode.clamp, FlightMode.rawCL,
      if_neg (not_lt.mpr hge)]
  · intro a
    refine ⟨le_max_left _ _, ?_⟩
    rw [FlightMode.flightCL, FlightMode.clamp]
    exact max_le (by norm_num) (min_le_left _ _)

/-- C6 witness: at zero angle of attack the linear branch applies and yields
the clamped value of 2*pi*0. -/
theorem flight_cl_model_witness :
    FlightMode.flightCL 0 = max (-1.2) (min 1.2 (2 * Real.pi * 0)) :=
  flight_cl_model.1 0 (by simpa using alphaStall_pos)

/-- C8: the flight toggle is edge-triggered (each activate flips the flag);
with the collision mesh present, entry zeroes the angular velocity, sets the
gravity scale to 0 and seeds the pitch targets from the flight path angle of
the velocity with roll 0, while exit restores gravity scale 1 and zeroes the
pitch and roll state; and entering Submerged while Flying first runs exactly
these Flying-exit side effects before the submerged dynamics are applied. -/
theorem flight_entry_exit_effects :
    (∀ s : FlightMode.PVars, (FlightMode.activate s).isFlying = !s.isFlying) ∧
    (∀ s : FlightMode.PVars, s.hasCollisionMesh = true → s.isFlying = false →
      (FlightMode.activate s).gravityScale = 0 ∧
      (FlightMode.activate s).angvel = ⟨0, 0, 0⟩ ∧
      (FlightMode.activate s).targetPitch = FlightMode.flightPathAngle s.velocity ∧
      (FlightMode.activate s).currentPitch = FlightMode.flightPathAngle s.velocity ∧
      (FlightMode.activate s).targetRoll = 0 ∧
      (FlightMode.activate s).currentRoll = 0) ∧
    (∀ s : FlightMode.PVars, s.hasCollisionMesh = true → s.isFlying = true →
      (FlightMode.activate s).gravityScale = 1 ∧
      (FlightMode.activate s).targetPitch = 0 ∧
      (FlightMode.activate s).targetRoll = 0 ∧
      (FlightMode.activate s).currentPitch = 0 ∧
      (FlightMode.activate s).currentRoll = 0) ∧
    (∀ s : FlightMode.PVars, s.isFlying = true →
      OceanMode.update s = OceanMode.oceanDynamics (FlightMode.activate s)) ∧
    (∀ s : FlightMode.PVars, s.isFlying = true → s.hasCollisionMesh = true →
      (OceanMode.update s).gravityScale = 1 ∧
      (OceanMode.update s).isFlying = false ∧
      (OceanMode.update s).targetPitch = 0 ∧
      (OceanMode.update s).targetRoll = 0) := by
  refine ⟨?_, ?_, ?_, ?_, ?_⟩
  · intro s
    cases hm : s.hasCollisionMesh <;> cases hf : s.isFlying <;>
      simp [FlightMode.activate, hm, hf]
  · intro s hm hf
    simp [FlightMode.activate, hm, hf]
  · intro s hm hf
    simp [FlightMode.activate, hm, hf]
  · intro s hf
    simp [OceanMode.update, hf]
  · intro s hf hm
    simp [OceanMode.update, OceanMode.oceanDynamics, FlightMode.activate, hf, hm]

/-- C8 witness: from a concrete non-flying state with the collision mesh
present, the toggle disables gravity and raises the flying flag. -/
theorem flight_entry_exit_effects_witness :
    (FlightMode.activate
      ⟨false, 1, ⟨1, 2, 3⟩, 1, 1, 1, 1, ⟨0, 0, 0⟩, ⟨0, 0, 0⟩, ⟨0, 0, 0⟩, 2,
        true⟩).gravityScale = 0 ∧
    (FlightMode.activate
      ⟨false, 1, ⟨1, 2, 3⟩, 1, 1, 1, 1, ⟨0, 0, 0⟩, ⟨0, 0, 0⟩, ⟨0, 0, 0⟩, 2,
        true⟩).isFlying = !false := by
  exact ⟨(flight_entry_exit_effects.2.1 _ rfl rfl).1,
    flight_entry_exit_effects.1 _⟩
